import Mathlib

/-!
Verification of the BoardSar backend integration test suite
(src/backend/TestIntegrationBackend.py).

The suite drives a remote HTTP backend and asserts on status codes and
response bodies.  We embed it shallowly:

* JSON values are modelled by `JVal` (numeric JSON values occurring in the
  suite are integral, so numbers are modelled by `Int`; Python numeric
  equality such as 2.0 == 2 is integer equality under this encoding).
* The backend is an oracle `Oracle : Nat → HResp` giving the response to the
  i-th HTTP call of a scenario.
* A scenario is a function `Oracle → Bool × Trace`: it threads a state `St`
  that records every (request, response) pair issued and a liveness flag
  `ok`.  A failed unittest assertion or an uncaught Python exception
  (KeyError, TypeError, AttributeError) clears `ok`; once `ok` is false no
  further HTTP calls are issued, matching unittest abort semantics.  The
  scenario result is the final `ok` (did the test pass) plus the trace of
  calls actually made.
* The helper adapters (register_user, login_user, create_board, ...) and the
  MongoDB cleanup logic are translated function by function from the source.
-/

/-- JSON value, as produced by response.json() in the suite. -/
inductive JVal where
  | null
  | bool (b : Bool)
  | num (n : Int)
  | str (s : String)
  | arr (xs : List JVal)
  | obj (fields : List (String × JVal))

/-- Python equality of a JSON value against a string literal; the suite only
ever compares response fragments against string or integer literals. -/
def JVal.eqStr : JVal → String → Bool
  | .str s, t => s == t
  | _, _ => false

/-- Python equality of a JSON value against an integer literal (Python
compares int and float numerically, so 2.0 == 2 holds; all numeric literals
in the suite are integral). -/
def JVal.eqNum : JVal → Int → Bool
  | .num m, n => m == n
  | _, _ => false

/-- Python identity test v is None. -/
def JVal.isNull : JVal → Bool
  | .null => true
  | _ => false

/-- Body of an HTTP response as normalised by the adapters: a parsed JSON
value when the content type is application/json, otherwise the raw text. -/
inductive RespBody where
  | json (v : JVal)
  | text (s : String)

/-- An HTTP response: status code, body, and response header names (headers
are only inspected by the CORS scenario). -/
structure HResp where
  status : Nat
  body : RespBody
  hdrs : List String

/-- First-match association lookup, modelling Python dict key access. -/
def jLookup (fs : List (String × JVal)) (k : String) : Option JVal :=
  match fs with
  | [] => none
  | (k₁, v) :: rest => if k₁ = k then some v else jLookup rest k

/-- Python dict.get(k): the stored value, or None when the key is absent. -/
def pyGet (fs : List (String × JVal)) (k : String) : JVal :=
  (jLookup fs k).getD JVal.null

/-- Python dict.get(k, d): the stored value, or d when the key is absent. -/
def pyGetD (fs : List (String × JVal)) (k : String) (d : JVal) : JVal :=
  (jLookup fs k).getD d

/-- Python truthiness of a JSON value. -/
def jTruthy : JVal → Bool
  | .null => false
  | .bool b => b
  | .num n => !(n == 0)
  | .str s => !(s == "")
  | .arr xs => !xs.isEmpty
  | .obj fs => !fs.isEmpty

/-- Does the character list pre occur at the start of l. -/
def startsWithSeq : List Char → List Char → Bool
  | [], _ => true
  | _ :: _, [] => false
  | a :: as, b :: bs => a = b && startsWithSeq as bs

/-- Does the character list needle occur contiguously inside hay. -/
def containsSeq (needle : List Char) : List Char → Bool
  | [] => startsWithSeq needle []
  | c :: rest => startsWithSeq needle (c :: rest) || containsSeq needle rest

/-- Python substring membership: needle in hay. -/
def strContainsSub (hay needle : String) : Bool :=
  containsSeq needle.data hay.data

/-- Python membership test of a string in a JSON value: key membership for
objects, substring for strings, element equality for arrays, and a
TypeError (modelled as none) for the remaining values. -/
def pyInJ (needle : String) : JVal → Option Bool
  | .obj fs => some (jLookup fs needle).isSome
  | .str s => some (strContainsSub s needle)
  | .arr xs => some (xs.any (fun v => v.eqStr needle))
  | _ => none

/-- Python membership test of a string in a normalised response body. -/
def pyInB (needle : String) : RespBody → Option Bool
  | .json v => pyInJ needle v
  | .text s => some (strContainsSub s needle)

/-- Python indexing v[k] with a string key: a KeyError or TypeError is
modelled as none. -/
def pyIndexJ (v : JVal) (k : String) : Option JVal :=
  match v with
  | .obj fs => jLookup fs k
  | _ => none

/-- Python indexing of a normalised response body with a string key. -/
def pyIndexB (b : RespBody) (k : String) : Option JVal :=
  match b with
  | .json v => pyIndexJ v k
  | .text _ => none

/-- The object fields of a body that is a parsed JSON object, if any;
models isinstance(response, dict). -/
def asObjB : RespBody → Option (List (String × JVal))
  | .json (.obj fs) => some fs
  | _ => none

/-- The backend under test, as the sequence of responses it returns to the
HTTP calls of one scenario, in call order. -/
abbrev Oracle := Nat → HResp

/-- Structured HTTP requests issued by the suite.  Bearer tokens and board
ids are carried as the Python values interpolated into the request, which
for the suite are strings or values extracted from earlier responses. -/
inductive Request where
  | health
  | register (email password : String)
  | login (email password : String)
  | profile (token : JVal)
  | createBoard (token : JVal) (body : JVal)
  | createBoardForm (token : JVal) (payload : String)
  | listBoards (token : JVal)
  | getBoard (token : JVal) (boardId : JVal)
  | updateBoard (token : JVal) (boardId : JVal) (body : JVal)
  | deleteBoard (token : JVal) (boardId : JVal)
  | corsOptions

abbrev Trace := List (Request × HResp)

/-- Placeholder response handed back by operations once a scenario has
already failed; it is never inspected on a passing run. -/
def dummyResp : HResp := ⟨0, .text "", []⟩

/-- Execution state of one scenario: the oracle, the index of the next HTTP
call, the trace of calls made so far, and whether the test is still alive
(no failed assertion and no uncaught exception yet). -/
structure St where
  o : Oracle
  i : Nat
  tr : Trace
  ok : Bool

def St.init (o : Oracle) : St := ⟨o, 0, [], true⟩

/-- Record a failed assertion or an uncaught exception. -/
def St.fail (st : St) : St := { st with ok := false }

/-- Issue one HTTP call, provided the scenario is still alive. -/
def St.call (st : St) (r : Request) : HResp × St :=
  if st.ok then
    let resp := st.o st.i
    (resp, { st with i := st.i + 1, tr := st.tr ++ [(r, resp)] })
  else (dummyResp, st)

/-- Record the outcome of a boolean unittest assertion. -/
def St.check (st : St) (b : Bool) : St := { st with ok := st.ok && b }

/-- Record an assertion whose evaluation itself may raise (none). -/
def St.checkOpt (st : St) (b : Option Bool) : St :=
  match b with
  | some bv => st.check bv
  | none => st.fail

/-- Evaluate a Python expression that raises when the option is none. -/
def St.forceJ (st : St) (v : Option JVal) : JVal × St :=
  match v with
  | some x => (x, st)
  | none => (JVal.null, st.fail)

/-- Python list indexing exp[0] followed by nothing: the head of an array,
failing on an empty or non-array value (IndexError or a later
AttributeError on the non-dict element). -/
def St.headJ (st : St) (v : JVal) : JVal × St :=
  match v with
  | .arr (x :: _) => (x, st)
  | _ => (JVal.null, st.fail)

/-- Python exp.get(k): attribute access that raises unless exp is a dict. -/
def St.attrGet (st : St) (v : JVal) (k : String) : JVal × St :=
  match v with
  | .obj fs => (pyGet fs k, st)
  | _ => (JVal.null, st.fail)

/-! ### Fixture generator (source lines 78-105) -/

/-- Fixed test domain from the configuration section of the source. -/
def TEST_EMAIL_DOMAIN : String := "test.example.com"

/-- Characters Python random.choices draws the suffix from:
string.ascii_lowercase + string.digits. -/
def lowerAlnum : List Char :=
  "abcdefghijklmnopqrstuvwxyz0123456789".data

/-- Translation of generate_test_email.  The millisecond timestamp and the
8-character random suffix are inputs; the Python f-string formats the
timestamp in decimal, which is Nat.repr. -/
def generate_test_email (timestamp : Nat) (suffix : String) : String :=
  "testuser_" ++ Nat.repr timestamp ++ "_" ++ suffix ++ "@" ++ TEST_EMAIL_DOMAIN

/-- Translation of generate_test_board_data: the fixed canonical board
payload. -/
def generate_test_board_data : JVal :=
  .obj [("scale", .num 1),
        ("position", .obj [("x", .num 0), ("y", .num 0)]),
        ("shapes", .arr [
          .obj [("id", .str "test-shape-1"),
                ("type", .str "rectangle"),
                ("x", .num 100),
                ("y", .num 100),
                ("width", .num 200),
                ("height", .num 150),
                ("fill", .str "#ff0000"),
                ("stroke", .str "#000000"),
                ("strokeWidth", .num 2)]])]

/-! ### API client adapters (source lines 107-279) -/

structure RegResult where
  status_code : Nat
  response : RespBody
  email : String
  password : String

structure LoginResult where
  status_code : Nat
  response : RespBody
  /-- Present (some) exactly when the source added the token key to the
  result dict; the value itself is the JSON value of body.get("token"),
  which may be JVal.null. -/
  token : Option JVal
  /-- Present exactly when the source added the user_id key. -/
  user_id : Option JVal

structure SimpleResult where
  status_code : Nat
  response : RespBody

structure CreateResult where
  status_code : Nat
  response : RespBody
  /-- Present (some) exactly when the source added the board_id key; the
  value may be JVal.null when the probed id fields are missing. -/
  board_id : Option JVal

def dummyLogin : LoginResult := ⟨0, .text "", none, none⟩

/-- Translation of register_user (lines 107-126). -/
def register_user (st : St) (email : String)
    (password : String := "testpassword123") : RegResult × St :=
  let (resp, st) := st.call (.register email password)
  (⟨resp.status, resp.body, email, password⟩, st)

/-- Token and user id extraction of login_user (lines 142-151).  The keys
are added only for a 200 status with a dict body; when the user field holds
a non-dict value, the chained .get("id") raises an AttributeError, modelled
as none. -/
def login_extract (resp : HResp) : Option LoginResult :=
  if resp.status == 200 then
    match asObjB resp.body with
    | some fs =>
      match pyGetD fs "user" (JVal.obj []) with
      | .obj ufs =>
        some ⟨resp.status, resp.body, some (pyGet fs "token"),
              some (pyGet ufs "id")⟩
      | _ => none
    | none => some ⟨resp.status, resp.body, none, none⟩
  else some ⟨resp.status, resp.body, none, none⟩

/-- Translation of login_user (lines 128-152). -/
def login_user (st : St) (email : String)
    (password : String := "testpassword123") : LoginResult × St :=
  let (resp, st) := st.call (.login email password)
  match login_extract resp with
  | some r => (r, st)
  | none => (dummyLogin, st.fail)

/-- Translation of get_profile (lines 154-168). -/
def get_profile (st : St) (token : JVal) : SimpleResult × St :=
  let (resp, st) := st.call (.profile token)
  (⟨resp.status, resp.body⟩, st)

/-- Board id extraction of create_board (lines 194-208): probes the nested
board._id shape first, then falls back to the top-level _id; the key is
added only for a 201 status with a dict body. -/
def create_extract (resp : HResp) : CreateResult :=
  if resp.status == 201 then
    match asObjB resp.body with
    | some fs =>
      match jLookup fs "board" with
      | some bdr =>
        match bdr with
        | .obj bfs =>
          if (jLookup bfs "_id").isSome then
            ⟨resp.status, resp.body, some (pyGet bfs "_id")⟩
          else
            ⟨resp.status, resp.body, some (pyGet fs "_id")⟩
        | _ => ⟨resp.status, resp.body, some (pyGet fs "_id")⟩
      | none => ⟨resp.status, resp.body, some (pyGet fs "_id")⟩
    | none => ⟨resp.status, resp.body, none⟩
  else ⟨resp.status, resp.body, none⟩

/-- Translation of create_board (lines 170-210); the request body wraps the
board payload as a board field. -/
def create_board (st : St) (token : JVal) (board_data : JVal) :
    CreateResult × St :=
  let (resp, st) := st.call (.createBoard token (.obj [("board", board_data)]))
  (create_extract resp, st)

/-- Translation of get_boards (lines 212-226). -/
def get_boards (st : St) (token : JVal) : SimpleResult × St :=
  let (resp, st) := st.call (.listBoards token)
  (⟨resp.status, resp.body⟩, st)

/-- Translation of get_board (lines 228-242). -/
def get_board (st : St) (token : JVal) (board_id : JVal) : SimpleResult × St :=
  let (resp, st) := st.call (.getBoard token board_id)
  (⟨resp.status, resp.body⟩, st)

/-- Translation of update_board (lines 244-263). -/
def update_board (st : St) (token : JVal) (board_id : JVal)
    (board_data : JVal) : SimpleResult × St :=
  let (resp, st) := st.call
    (.updateBoard token board_id (.obj [("board", board_data)]))
  (⟨resp.status, resp.body⟩, st)

/-- Translation of delete_board (lines 265-279). -/
def delete_board (st : St) (token : JVal) (board_id : JVal) :
    SimpleResult × St :=
  let (resp, st) := st.call (.deleteBoard token board_id)
  (⟨resp.status, resp.body⟩, st)

/-- Python login_result["token"]: a KeyError when the key is absent. -/
def St.loginToken (st : St) (r : LoginResult) : JVal × St :=
  st.forceJ r.token

/-- Python create_result["board_id"]: a KeyError when the key is absent. -/
def St.createBoardId (st : St) (r : CreateResult) : JVal × St :=
  st.forceJ r.board_id

/-- Python response.json(): raises (fail) when the body was not JSON. -/
def St.jsonOf (st : St) (b : RespBody) : JVal × St :=
  match b with
  | .json v => (v, st)
  | .text _ => (JVal.null, st.fail)

/-- Board id determination shared by tests 25, 28 and 31 (lines 506-510,
569-573, 641-645): the nested board._id via .get when the body is a dict
with a board key, otherwise the board_id entry of the adapter result (a
KeyError when that entry was never added). -/
def St.boardIdOfCreate (st : St) (cr : CreateResult) : JVal × St :=
  match asObjB cr.response with
  | some fs =>
    match jLookup fs "board" with
    | some bv => st.attrGet bv "_id"
    | none => st.forceJ cr.board_id
  | none => st.forceJ cr.board_id

/-- Fallback shared by tests 25, 28 and 31 (lines 514-525, 575-586,
647-658): when the board id is None, list the boards and take the _id of
the first one, when present. -/
def St.boardIdFallback (st : St) (tok : JVal) (bid : JVal) : JVal × St :=
  if bid.isNull then
    let (bres, st) := get_boards st tok
    match asObjB bres.response with
    | some fs =>
      match jLookup fs "boards" with
      | some bsv =>
        if jTruthy bsv then
          let (b0, st) := st.headJ bsv
          st.attrGet b0 "_id"
        else (bid, st)
      | none => (bid, st)
    | none => (bid, st)
  else (bid, st)

/-! ### The assertion protocol: one definition per scenario.
Each scenario takes the fresh emails its fixtures generate as parameters
and returns whether the test passes together with the trace of HTTP calls
it issued. -/

/-- Lines 283-289. -/
def test_01_server_health (o : Oracle) : Bool × Trace :=
  let st := St.init o
  let (resp, st) := st.call .health
  let st := st.check (resp.status == 200)
  let (data, st) := st.jsonOf resp.body
  let (sv, st) := st.forceJ (pyIndexJ data "status")
  let st := st.check (sv.eqStr "ok")
  (st.ok, st.tr)

/-- Lines 291-302. -/
def test_02_user_registration_valid (email : String) (o : Oracle) :
    Bool × Trace :=
  let st := St.init o
  let (result, st) := register_user st email
  let st := st.check (result.status_code == 201)
  let st := st.checkOpt (pyInB "message" result.response)
  let (mv, st) := st.forceJ (pyIndexB result.response "message")
  let st := st.check (mv.eqStr "User created successfully")
  (st.ok, st.tr)

/-- Lines 304-319. -/
def test_03_user_registration_duplicate_email (email : String) (o : Oracle) :
    Bool × Trace :=
  let st := St.init o
  let (r1, st) := register_user st email
  let st := st.check (r1.status_code == 201)
  let (r2, st) := register_user st email
  let st := st.check (r2.status_code == 409)
  let st := st.checkOpt (pyInB "error" r2.response)
  let (ev, st) := st.forceJ (pyIndexB r2.response "error")
  let st := st.checkOpt (pyInJ "already registered" ev)
  (st.ok, st.tr)

/-- Lines 321-325. -/
def test_04_user_registration_invalid_email (o : Oracle) : Bool × Trace :=
  let st := St.init o
  let (result, st) := register_user st "invalid-email"
  let st := st.check (result.status_code == 400)
  let st := st.checkOpt (pyInB "error" result.response)
  (st.ok, st.tr)

/-- Lines 327-331. -/
def test_05_user_registration_weak_password (email : String) (o : Oracle) :
    Bool × Trace :=
  let st := St.init o
  let (result, st) := register_user st email "123"
  let st := st.check (result.status_code == 400)
  let st := st.checkOpt (pyInB "error" result.response)
  (st.ok, st.tr)

/-- Lines 333-355. -/
def test_06_user_login_valid (email : String) (o : Oracle) : Bool × Trace :=
  let st := St.init o
  let (reg, st) := register_user st email
  let st := st.check (reg.status_code == 201)
  let (login, st) := login_user st email
  let st := st.check (login.status_code == 200)
  let st := st.check login.token.isSome
  let st := st.checkOpt (pyInB "user" login.response)
  let (uv, st) := st.forceJ (pyIndexB login.response "user")
  let st := st.checkOpt (pyInJ "id" uv)
  let st := st.checkOpt (pyInJ "email" uv)
  let (_tk, st) := st.forceJ login.token
  let (_uid, st) := st.forceJ login.user_id
  (st.ok, st.tr)

/-- Lines 357-364. -/
def test_07_user_login_invalid_credentials (email : String) (o : Oracle) :
    Bool × Trace :=
  let st := St.init o
  let (result, st) := login_user st email
  let st := st.check (result.status_code == 401)
  let st := st.checkOpt (pyInB "error" result.response)
  (st.ok, st.tr)

/-- Lines 366-377. -/
def test_08_user_login_wrong_password (email : String) (o : Oracle) :
    Bool × Trace :=
  let st := St.init o
  let (reg, st) := register_user st email
  let st := st.check (reg.status_code == 201)
  let (result, st) := login_user st email "wrongpassword"
  let st := st.check (result.status_code == 401)
  let st := st.checkOpt (pyInB "error" result.response)
  (st.ok, st.tr)

/-- Lines 379-392. -/
def test_09_user_profile_access (email : String) (o : Oracle) :
    Bool × Trace :=
  let st := St.init o
  let (_reg, st) := register_user st email
  let (login, st) := login_user st email
  let (tok, st) := st.loginToken login
  let (profile, st) := get_profile st tok
  let st := st.check (profile.status_code == 200)
  let st := st.checkOpt (pyInB "id" profile.response)
  let st := st.checkOpt (pyInB "email" profile.response)
  let (ev, st) := st.forceJ (pyIndexB profile.response "email")
  let st := st.check (ev.eqStr email)
  (st.ok, st.tr)

/-- Lines 394-398. -/
def test_10_user_profile_no_token (o : Oracle) : Bool × Trace :=
  let st := St.init o
  let (result, st) := get_profile st (.str "")
  let st := st.check (result.status_code == 401)
  let st := st.checkOpt (pyInB "error" result.response)
  (st.ok, st.tr)

/-- Lines 400-404. -/
def test_11_user_profile_invalid_token (o : Oracle) : Bool × Trace :=
  let st := St.init o
  let (result, st) := get_profile st (.str "invalid-token")
  let st := st.check (result.status_code == 401)
  let st := st.checkOpt (pyInB "error" result.response)
  (st.ok, st.tr)

/-- The canonical shape of the fixture payload, shared between the default
board and the updated board of test 28. -/
def test_shape_1 : JVal :=
  .obj [("id", .str "test-shape-1"),
        ("type", .str "rectangle"),
        ("x", .num 100),
        ("y", .num 100),
        ("width", .num 200),
        ("height", .num 150),
        ("fill", .str "#ff0000"),
        ("stroke", .str "#000000"),
        ("strokeWidth", .num 2)]

/-- The payload built in test 28 (lines 589-591): a copy of the fixture with
scale set to 2.0 and position to x 50, y 50; Python dicts keep insertion
order, so the key order is unchanged. -/
def updated_board_data : JVal :=
  .obj [("scale", .num 2),
        ("position", .obj [("x", .num 50), ("y", .num 50)]),
        ("shapes", .arr [test_shape_1])]

/-- Lines 408-429. -/
def test_20_board_create_authenticated (email : String) (o : Oracle) :
    Bool × Trace :=
  let st := St.init o
  let (_reg, st) := register_user st email
  let (login, st) := login_user st email
  let (tok, st) := st.loginToken login
  let (result, st) := create_board st tok generate_test_board_data
  let st := st.check (result.status_code == 201)
  let st := st.checkOpt (pyInB "message" result.response)
  let st := st.checkOpt (pyInB "board" result.response)
  let (_bid, st) := st.createBoardId result
  (st.ok, st.tr)

/-- Lines 431-437. -/
def test_21_board_create_unauthenticated (o : Oracle) : Bool × Trace :=
  let st := St.init o
  let (result, st) := create_board st (.str "") generate_test_board_data
  let st := st.check (result.status_code == 401)
  let st := st.checkOpt (pyInB "error" result.response)
  (st.ok, st.tr)

/-- Lines 439-459; the request posts the JSON body {} with the bearer
token, bypassing the adapter. -/
def test_22_board_create_invalid_data (email : String) (o : Oracle) :
    Bool × Trace :=
  let st := St.init o
  let (_reg, st) := register_user st email
  let (login, st) := login_user st email
  let (tok, st) := st.loginToken login
  let (resp, st) := st.call (.createBoard tok (.obj []))
  let st := st.check (resp.status == 400)
  let (jv, st) := st.jsonOf resp.body
  let st := st.checkOpt (pyInJ "error" jv)
  (st.ok, st.tr)

/-- Lines 461-481. -/
def test_23_board_list_authenticated (email : String) (o : Oracle) :
    Bool × Trace :=
  let st := St.init o
  let (_reg, st) := register_user st email
  let (login, st) := login_user st email
  let (tok, st) := st.loginToken login
  let (cres, st) := create_board st tok generate_test_board_data
  let st := st.check (cres.status_code == 201)
  let (lres, st) := get_boards st tok
  let st := st.check (lres.status_code == 200)
  let st :=
    match asObjB lres.response with
    | some fs =>
      match jLookup fs "boards" with
      | some bv =>
        match bv with
        | .arr xs => st.check (decide (0 < xs.length))
        | _ => st.check false
      | none => st
    | none => st
  (st.ok, st.tr)

/-- Lines 483-487. -/
def test_24_board_list_unauthenticated (o : Oracle) : Bool × Trace :=
  let st := St.init o
  let (result, st) := get_boards st (.str "")
  let st := st.check (result.status_code == 401)
  let st := st.checkOpt (pyInB "error" result.response)
  (st.ok, st.tr)

/-- Lines 489-534. -/
def test_25_board_get_specific (email : String) (o : Oracle) : Bool × Trace :=
  let st := St.init o
  let (_reg, st) := register_user st email
  let (login, st) := login_user st email
  let (tok, st) := st.loginToken login
  let (cres, st) := create_board st tok generate_test_board_data
  let st := st.check (cres.status_code == 201)
  let (bid, st) := st.boardIdOfCreate cres
  let (bid, st) := st.boardIdFallback tok bid
  let (gres, st) := get_board st tok bid
  let st := st.check (gres.status_code == 200)
  let st :=
    match asObjB gres.response with
    | some fs =>
      match jLookup fs "board" with
      | some rb =>
        let (sv, st) := st.forceJ (pyIndexJ rb "scale")
        st.check (sv.eqNum 1)
      | none => st
    | none => st
  (st.ok, st.tr)

/-- Lines 536-547. -/
def test_26_board_get_nonexistent (email : String) (o : Oracle) :
    Bool × Trace :=
  let st := St.init o
  let (_reg, st) := register_user st email
  let (login, st) := login_user st email
  let (tok, st) := st.loginToken login
  let (result, st) := get_board st tok (.str "nonexistent-board-id")
  let st := st.check (result.status_code == 404)
  let st := st.checkOpt (pyInB "error" result.response)
  (st.ok, st.tr)

/-- Lines 549-553. -/
def test_27_board_get_unauthenticated (o : Oracle) : Bool × Trace :=
  let st := St.init o
  let (result, st) := get_board st (.str "") (.str "some-board-id")
  let st := st.check (result.status_code == 401)
  let st := st.checkOpt (pyInB "error" result.response)
  (st.ok, st.tr)

/-- Lines 555-604. -/
def test_28_board_update_existing (email : String) (o : Oracle) :
    Bool × Trace :=
  let st := St.init o
  let (_reg, st) := register_user st email
  let (login, st) := login_user st email
  let (tok, st) := st.loginToken login
  let (cres, st) := create_board st tok generate_test_board_data
  let st := st.check (cres.status_code == 201)
  let (bid, st) := st.boardIdOfCreate cres
  let (bid, st) := st.boardIdFallback tok bid
  let (ures, st) := update_board st tok bid updated_board_data
  let st := st.check (ures.status_code == 200)
  let st := st.checkOpt (pyInB "message" ures.response)
  let (gres, st) := get_board st tok bid
  let st := st.check (gres.status_code == 200)
  let st :=
    match asObjB gres.response with
    | some fs =>
      match jLookup fs "board" with
      | some rb =>
        let (sv, st) := st.forceJ (pyIndexJ rb "scale")
        let st := st.check (sv.eqNum 2)
        let (pv, st) := st.forceJ (pyIndexJ rb "position")
        let (xv, st) := st.forceJ (pyIndexJ pv "x")
        st.check (xv.eqNum 50)
      | none => st
    | none => st
  (st.ok, st.tr)

/-- Lines 606-618. -/
def test_29_board_update_nonexistent (email : String) (o : Oracle) :
    Bool × Trace :=
  let st := St.init o
  let (_reg, st) := register_user st email
  let (login, st) := login_user st email
  let (tok, st) := st.loginToken login
  let (result, st) :=
    update_board st tok (.str "nonexistent-board-id") generate_test_board_data
  let st := st.check (result.status_code == 404)
  let st := st.checkOpt (pyInB "error" result.response)
  (st.ok, st.tr)

/-- Lines 620-625. -/
def test_30_board_update_unauthenticated (o : Oracle) : Bool × Trace :=
  let st := St.init o
  let (result, st) :=
    update_board st (.str "") (.str "some-board-id") generate_test_board_data
  let st := st.check (result.status_code == 401)
  let st := st.checkOpt (pyInB "error" result.response)
  (st.ok, st.tr)

/-- Lines 627-664. -/
def test_31_board_delete_existing (email : String) (o : Oracle) :
    Bool × Trace :=
  let st := St.init o
  let (_reg, st) := register_user st email
  let (login, st) := login_user st email
  let (tok, st) := st.loginToken login
  let (cres, st) := create_board st tok generate_test_board_data
  let st := st.check (cres.status_code == 201)
  let (bid, st) := st.boardIdOfCreate cres
  let (bid, st) := st.boardIdFallback tok bid
  let (dres, st) := delete_board st tok bid
  let st := st.check (dres.status_code == 200)
  let st := st.checkOpt (pyInB "message" dres.response)
  let st := st.checkOpt (pyInB "boardId" dres.response)
  (st.ok, st.tr)

/-- Lines 666-677. -/
def test_32_board_delete_nonexistent (email : String) (o : Oracle) :
    Bool × Trace :=
  let st := St.init o
  let (_reg, st) := register_user st email
  let (login, st) := login_user st email
  let (tok, st) := st.loginToken login
  let (result, st) := delete_board st tok (.str "nonexistent-board-id")
  let st := st.check (result.status_code == 404)
  let st := st.checkOpt (pyInB "error" result.response)
  (st.ok, st.tr)

/-- Lines 679-683. -/
def test_33_board_delete_unauthenticated (o : Oracle) : Bool × Trace :=
  let st := St.init o
  let (result, st) := delete_board st (.str "") (.str "some-board-id")
  let st := st.check (result.status_code == 401)
  let st := st.checkOpt (pyInB "error" result.response)
  (st.ok, st.tr)

/-- Lines 687-713.  The cross-user get is guarded: it only runs when the
second login result carries a token key; otherwise the scenario prints a
warning and passes. -/
def test_40_board_access_other_user_board (email1 email2 : String)
    (o : Oracle) : Bool × Trace :=
  let st := St.init o
  let (_r1, st) := register_user st email1
  let (login1, st) := login_user st email1
  let (_r2, st) := register_user st email2
  let (login2, st) := login_user st email2
  let (tok1, st) := st.loginToken login1
  let (cres, st) := create_board st tok1 generate_test_board_data
  let st := st.check (cres.status_code == 201)
  let (bid, st) := st.createBoardId cres
  let st :=
    match login2.token with
    | some tok2 =>
      let (gres, st) := get_board st tok2 bid
      let st := st.check (gres.status_code == 404)
      st.checkOpt (pyInB "error" gres.response)
    | none => st
  (st.ok, st.tr)

/-- Lines 715-747.  After asserting status 200 on the second user board
listing, the scenario only checks that a non-None boards field is a list;
no assertion inspects the listed board ids. -/
def test_41_board_list_other_user_boards (email1 email2 : String)
    (o : Oracle) : Bool × Trace :=
  let st := St.init o
  let (_r1, st) := register_user st email1
  let (login1, st) := login_user st email1
  let (_r2, st) := register_user st email2
  let (login2, st) := login_user st email2
  let (tok1, st) := st.loginToken login1
  let (cres, st) := create_board st tok1 generate_test_board_data
  let st := st.check (cres.status_code == 201)
  let (tok2, st) := st.loginToken login2
  let (lres, st) := get_boards st tok2
  let st := st.check (lres.status_code == 200)
  let st :=
    match asObjB lres.response with
    | some fs =>
      match jLookup fs "boards" with
      | some bv =>
        if bv.isNull then st
        else
          match bv with
          | .arr _ => st
          | _ => st.check false
      | none => st
    | none => st
  (st.ok, st.tr)

/-- Lines 749-763. -/
def test_42_jwt_token_validation (email : String) (o : Oracle) :
    Bool × Trace :=
  let st := St.init o
  let (_reg, st) := register_user st email
  let (_login, st) := login_user st email
  let (r1, st) := get_profile st (.str "malformed.token.here")
  let st := st.check (r1.status_code == 401)
  let (r2, st) := get_profile st (.str "")
  let st := st.check (r2.status_code == 401)
  (st.ok, st.tr)

/-- Lines 765-782. -/
def test_43_cors_headers (o : Oracle) : Bool × Trace :=
  let st := St.init o
  let (resp, st) := st.call .corsOptions
  let st := st.check (resp.status == 200 || resp.status == 204)
  let st := st.check (resp.hdrs.contains "Access-Control-Allow-Origin")
  let st := st.check (resp.hdrs.contains "Access-Control-Allow-Methods")
  (st.ok, st.tr)

/-- Lines 784-804. -/
def test_44_content_type_validation (email : String) (o : Oracle) :
    Bool × Trace :=
  let st := St.init o
  let (_reg, st) := register_user st email
  let (login, st) := login_user st email
  let (tok, st) := st.loginToken login
  let (resp, st) := st.call (.createBoardForm tok "board=test")
  let st := st.check
    (resp.status == 201 || resp.status == 400 || resp.status == 415)
  (st.ok, st.tr)

/-! ### Suite teardown (source lines 808-859) -/

/-- An entry of the test_users accumulator; cleanup only reads the email. -/
structure UserRec where
  email : String

/-- An entry of the test_boards accumulator; cleanup only reads the
board_id value, which is whatever the adapter extracted (possibly null). -/
structure BoardRec where
  board_id : JVal

/-- Outcome of one delete_many call of the persistence layer: a deleted
count, or a raised exception. -/
inductive DelOutcome where
  | ok (deleted_count : Nat)
  | exc

/-- Observable outcome of cleanup_test_data: the filters passed to the two
delete_many calls (none when the call was not issued), and which log
messages were printed.  The function is total: the try/except of the
source means cleanup never propagates an exception. -/
structure CleanupRun where
  userFilter : Option (List String)
  boardFilter : Option (List JVal)
  skippedNoMongo : Bool
  failureLogged : Bool

/-- Board half of cleanup_test_data (lines 822-837): ids are collected by
truthiness filtering, and the boards delete_many is only issued when the
filtered list is nonempty. -/
def cleanupBoards (uf : Option (List String)) (test_boards : List BoardRec)
    (boardDel : DelOutcome) : CleanupRun :=
  if test_boards.isEmpty then ⟨uf, none, false, false⟩
  else if ((test_boards.map (fun b => b.board_id)).filter jTruthy).isEmpty then
    ⟨uf, none, false, false⟩
  else
    match boardDel with
    | .exc =>
      ⟨uf, some ((test_boards.map (fun b => b.board_id)).filter jTruthy),
       false, true⟩
    | .ok _ =>
      ⟨uf, some ((test_boards.map (fun b => b.board_id)).filter jTruthy),
       false, false⟩

/-- Translation of cleanup_test_data (lines 808-840).  mongoOk is the
conjunction of the two availability guards of line 810; userDel and
boardDel are the outcomes the persistence layer would give to the two
delete_many calls. -/
def cleanup_test_data (mongoOk : Bool) (test_users : List UserRec)
    (test_boards : List BoardRec) (userDel boardDel : DelOutcome) :
    CleanupRun :=
  if !mongoOk then ⟨none, none, true, false⟩
  else
    if test_users.isEmpty then cleanupBoards none test_boards boardDel
    else
      match userDel with
      | .exc => ⟨some (test_users.map (fun u => u.email)), none, false, true⟩
      | .ok _ =>
        cleanupBoards (some (test_users.map (fun u => u.email)))
          test_boards boardDel

/-- Translation of tearDownClass (lines 842-859): run cleanup, then close
the MongoDB client when it was connected.  Totality of this function is the
model of the teardown completing without raising. -/
def tearDownClass (mongoOk : Bool) (test_users : List UserRec)
    (test_boards : List BoardRec) (userDel boardDel : DelOutcome) :
    CleanupRun × Bool :=
  (cleanup_test_data mongoOk test_users test_boards userDel boardDel, mongoOk)

/-! ### Claim-side definition for the board id contract (C6) -/

/-- The board id extraction as worded by the claim: the value of _id inside
the nested board object when the body has a board key holding a dict
containing _id; otherwise the top-level _id of the body, null when absent;
and no board_id entry at all for a non-201 status or non-object body.
This definition follows the claim text; create_extract follows the source,
and the C6 theorem compares the two. -/
def board_id_claimed (resp : HResp) : Option JVal :=
  match asObjB resp.body with
  | some fs =>
    if resp.status == 201 then
      some (match jLookup fs "board" with
            | some (JVal.obj bfs) =>
              match jLookup bfs "_id" with
              | some v => v
              | none => pyGet fs "_id"
            | some _ => pyGet fs "_id"
            | none => pyGet fs "_id")
    else none
  | none => none

/-! ### A concrete conforming run of the whole suite -/

def E1 : String := "alice@test.example.com"
def E2 : String := "bob@test.example.com"

def oracleOf (rs : List HResp) : Oracle := fun i => rs.getD i dummyResp

def rHealth : HResp := ⟨200, .json (.obj [("status", .str "ok")]), []⟩
def rReg : HResp :=
  ⟨201, .json (.obj [("message", .str "User created successfully")]), []⟩
def rDup : HResp :=
  ⟨409, .json (.obj [("error", .str "Email already registered")]), []⟩
def rBadReq : HResp := ⟨400, .json (.obj [("error", .str "Bad request")]), []⟩
def rBadLogin : HResp :=
  ⟨401, .json (.obj [("error", .str "Invalid credentials")]), []⟩
def r401 : HResp := ⟨401, .json (.obj [("error", .str "Unauthorized")]), []⟩
def r404 : HResp := ⟨404, .json (.obj [("error", .str "Board not found")]), []⟩
def rLoginA : HResp :=
  ⟨200, .json (.obj [("token", .str "tokA"),
                     ("user", .obj [("id", .str "u1"),
                                    ("email", .str E1)])]), []⟩
def rLoginB : HResp :=
  ⟨200, .json (.obj [("token", .str "tokB"),
                     ("user", .obj [("id", .str "u2"),
                                    ("email", .str E2)])]), []⟩
def rProfileA : HResp :=
  ⟨200, .json (.obj [("id", .str "u1"), ("email", .str E1)]), []⟩
def rCreate : HResp :=
  ⟨201, .json (.obj [("message", .str "Board created successfully"),
                     ("board", .obj [("_id", .str "b1"),
                                     ("scale", .num 1)])]), []⟩
def rList1 : HResp :=
  ⟨200, .json (.obj [("boards", .arr [.obj [("_id", .str "b1")]])]), []⟩
def rGet1 : HResp :=
  ⟨200, .json (.obj [("board", .obj [("_id", .str "b1"),
                                     ("scale", .num 1)])]), []⟩
def rUpdate : HResp :=
  ⟨200, .json (.obj [("message", .str "Board updated successfully")]), []⟩
def rGet2 : HResp :=
  ⟨200, .json (.obj [("board", .obj [("scale", .num 2),
                                     ("position", .obj [("x", .num 50),
                                                        ("y", .num 50)])])]),
   []⟩
def rDelete : HResp :=
  ⟨200, .json (.obj [("message", .str "Board deleted"),
                     ("boardId", .str "b1")]), []⟩
def rCors : HResp :=
  ⟨204, .text "",
   ["Access-Control-Allow-Origin", "Access-Control-Allow-Methods"]⟩

/-- One run of every scenario of the suite, against responses a conforming
backend would give. -/
def suiteRuns : List (Bool × Trace) :=
  [test_01_server_health (oracleOf [rHealth]),
   test_02_user_registration_valid E1 (oracleOf [rReg]),
   test_03_user_registration_duplicate_email E1 (oracleOf [rReg, rDup]),
   test_04_user_registration_invalid_email (oracleOf [rBadReq]),
   test_05_user_registration_weak_password E1 (oracleOf [rBadReq]),
   test_06_user_login_valid E1 (oracleOf [rReg, rLoginA]),
   test_07_user_login_invalid_credentials E1 (oracleOf [rBadLogin]),
   test_08_user_login_wrong_password E1 (oracleOf [rReg, rBadLogin]),
   test_09_user_profile_access E1 (oracleOf [rReg, rLoginA, rProfileA]),
   test_10_user_profile_no_token (oracleOf [r401]),
   test_11_user_profile_invalid_token (oracleOf [r401]),
   test_20_board_create_authenticated E1 (oracleOf [rReg, rLoginA, rCreate]),
   test_21_board_create_unauthenticated (oracleOf [r401]),
   test_22_board_create_invalid_data E1 (oracleOf [rReg, rLoginA, rBadReq]),
   test_23_board_list_authenticated E1
     (oracleOf [rReg, rLoginA, rCreate, rList1]),
   test_24_board_list_unauthenticated (oracleOf [r401]),
   test_25_board_get_specific E1 (oracleOf [rReg, rLoginA, rCreate, rGet1]),
   test_26_board_get_nonexistent E1 (oracleOf [rReg, rLoginA, r404]),
   test_27_board_get_unauthenticated (oracleOf [r401]),
   test_28_board_update_existing E1
     (oracleOf [rReg, rLoginA, rCreate, rUpdate, rGet2]),
   test_29_board_update_nonexistent E1 (oracleOf [rReg, rLoginA, r404]),
   test_30_board_update_unauthenticated (oracleOf [r401]),
   test_31_board_delete_existing E1
     (oracleOf [rReg, rLoginA, rCreate, rDelete]),
   test_32_board_delete_nonexistent E1 (oracleOf [rReg, rLoginA, r404]),
   test_33_board_delete_unauthenticated (oracleOf [r401]),
   test_40_board_access_other_user_board E1 E2
     (oracleOf [rReg, rLoginA, rReg, rLoginB, rCreate, r404]),
   test_41_board_list_other_user_boards E1 E2
     (oracleOf [rReg, rLoginA, rReg, rLoginB, rCreate, rList1]),
   test_42_jwt_token_validation E1 (oracleOf [rReg, rLoginA, r401, r401]),
   test_43_cors_headers (oracleOf [rCors]),
   test_44_content_type_validation E1 (oracleOf [rReg, rLoginA, rBadReq])]

/-- Requests addressed to the board endpoints (create, list, get, update,
delete), the protected endpoints other than the profile. -/
def isBoardRequest : Request → Bool
  | .createBoard _ _ => true
  | .createBoardForm _ _ => true
  | .listBoards _ => true
  | .getBoard _ _ => true
  | .updateBoard _ _ _ => true
  | .deleteBoard _ _ => true
  | _ => false

/-- The bearer token a board-endpoint request carries. -/
def boardReqToken : Request → JVal
  | .createBoard t _ => t
  | .createBoardForm t _ => t
  | .listBoards t => t
  | .getBoard t _ => t
  | .updateBoard t _ _ => t
  | .deleteBoard t _ => t
  | _ => JVal.null

def isDeleteRequest : Request → Bool
  | .deleteBoard _ _ => true
  | _ => false

/-- The delete_board requests of a trace. -/
def deletesOf (r : Bool × Trace) : List Request :=
  (r.2.filter (fun p => isDeleteRequest p.1)).map (fun p => p.1)

/-- The _id fields of the boards array of a listing response. -/
def idsOfListing (r : HResp) : List JVal :=
  match asObjB r.body with
  | some fs =>
    match jLookup fs "boards" with
    | some (.arr xs) =>
      xs.map (fun b => match b with | .obj bfs => pyGet bfs "_id" | _ => JVal.null)
    | _ => []
  | none => []

/-- Board id carried by a board-addressing request. -/
def reqBoardId : Request → JVal
  | .getBoard _ i => i
  | .updateBoard _ i _ => i
  | .deleteBoard _ i => i
  | _ => JVal.null

def isGetBoardRequest : Request → Bool
  | .getBoard _ _ => true
  | _ => false

def isUpdateRequest : Request → Bool
  | .updateBoard _ _ _ => true
  | _ => false

/-- Statuses of the responses to the delete_board calls of a run. -/
def deleteStatuses (r : Bool × Trace) : List Nat :=
  (r.2.filter (fun p => isDeleteRequest p.1)).map (fun p => p.2.status)

/-- Board ids of the delete_board calls of a run. -/
def deleteIds (r : Bool × Trace) : List JVal :=
  (r.2.filter (fun p => isDeleteRequest p.1)).map (fun p => reqBoardId p.1)

def getBoardStatuses (r : Bool × Trace) : List Nat :=
  (r.2.filter (fun p => isGetBoardRequest p.1)).map (fun p => p.2.status)

def updateStatuses (r : Bool × Trace) : List Nat :=
  (r.2.filter (fun p => isUpdateRequest p.1)).map (fun p => p.2.status)

/-- Exactly what test 28 checks about the body of the final get_board
response: nothing at all when the body is not a dict with a board key, and
otherwise that board.scale equals 2.0 and board.position.x equals 50; the
y coordinate is not inspected. -/
def c3ShapeChecked (r : HResp) : Bool :=
  match asObjB r.body with
  | some fs =>
    match jLookup fs "board" with
    | some rb =>
      (match pyIndexJ rb "scale" with
       | some sv => sv.eqNum 2
       | none => false)
      && (match (pyIndexJ rb "position").bind (fun pv => pyIndexJ pv "x") with
          | some xv => xv.eqNum 50
          | none => false)
    | none => true
  | none => true

/-- A get_board response whose board has a wrong scale; used to show that
the scale assertion of test 28 does bite. -/
def rGet2BadScale : HResp :=
  ⟨200, .json (.obj [("board", .obj [("scale", .num 3),
                                     ("position", .obj [("x", .num 50),
                                                        ("y", .num 50)])])]),
   []⟩

/-- A get_board response whose board has the updated scale and x but a y
coordinate of 999 instead of 50. -/
def rGet2Bad : HResp :=
  ⟨200, .json (.obj [("board", .obj [("scale", .num 2),
                                     ("position", .obj [("x", .num 50),
                                                        ("y", .num 999)])])]),
   []⟩

/-! ### C6 -/

/-- C6: for a 201 status with a JSON-object body the extracted board_id is
the nested board._id when the body has a board key holding a dict containing
_id and the top-level _id otherwise (null when absent), and for any other
status or body no board_id entry is added.  The claim-side function
board_id_claimed spells out exactly this contract; the theorem proves the
source-side extraction agrees with it everywhere. -/
theorem C6_board_id_extraction :
    ∀ resp : HResp, (create_extract resp).board_id = board_id_claimed resp := by
  intro resp
  obtain ⟨s, b, hd⟩ := resp
  cases b with
  | text t =>
    simp only [create_extract, board_id_claimed, asObjB]
    split <;> rfl
  | json v =>
    cases v with
    | obj fs =>
      simp only [create_extract, board_id_claimed, asObjB]
      by_cases hs : (s == 201) = true
      · simp only [hs, if_true]
        cases hb : jLookup fs "board" with
        | none => rfl
        | some bdr =>
          cases bdr with
          | obj bfs =>
            cases hid : jLookup bfs "_id" with
            | none => simp [pyGet, hid]
            | some w => simp [pyGet, hid]
          | null => rfl
          | bool x => rfl
          | num x => rfl
          | str x => rfl
          | arr x => rfl
      · simp [hs]
    | null => simp only [create_extract, board_id_claimed, asObjB]; split <;> rfl
    | bool b => simp only [create_extract, board_id_claimed, asObjB]; split <;> rfl
    | num n => simp only [create_extract, board_id_claimed, asObjB]; split <;> rfl
    | str s2 => simp only [create_extract, board_id_claimed, asObjB]; split <;> rfl
    | arr xs => simp only [create_extract, board_id_claimed, asObjB]; split <;> rfl

/-! ### C9 -/

/-- C9: whenever login_user returns a result (no AttributeError while
probing the user field), the result carries the token and user_id keys
exactly when the status is 200 and the parsed body is a JSON object; after
any failed or non-JSON login both keys are absent. -/
theorem C9_login_token_keys :
    ∀ (resp : HResp) (lr : LoginResult), login_extract resp = some lr →
      (lr.token.isSome = true ↔ resp.status = 200 ∧ (asObjB resp.body).isSome = true)
      ∧ (lr.user_id.isSome = true ↔ resp.status = 200 ∧ (asObjB resp.body).isSome = true) := by
  intro resp lr h
  unfold login_extract at h
  by_cases hs : (resp.status == 200) = true
  · have hs200 : resp.status = 200 := by simpa using hs
    rw [if_pos hs] at h
    cases ho : asObjB resp.body with
    | none =>
      simp only [ho] at h
      injection h with h
      subst h
      simp [ho]
    | some fs =>
      simp only [ho] at h
      cases hu : pyGetD fs "user" (JVal.obj []) <;> simp only [hu] at h
      all_goals
        first
          | exact Option.noConfusion h
          | (injection h with h; subst h; simp [ho, hs200])
  · have hne : resp.status ≠ 200 := by simpa using hs
    rw [if_neg hs] at h
    injection h with h
    subst h
    simp [hne]

/-! ### C7 and C10: cleanup -/

lemma cleanupBoards_userFilter (uf : Option (List String))
    (tb : List BoardRec) (bd : DelOutcome) :
    (cleanupBoards uf tb bd).userFilter = uf := by
  unfold cleanupBoards
  split
  · rfl
  · split
    · rfl
    · cases bd <;> rfl

lemma cleanupBoards_filter_inv (uf : Option (List String)) (tb : List BoardRec)
    (bd : DelOutcome) (l : List JVal)
    (h : (cleanupBoards uf tb bd).boardFilter = some l) :
    l = (tb.map (fun b => b.board_id)).filter jTruthy ∧ l ≠ [] := by
  unfold cleanupBoards at h
  by_cases h1 : tb.isEmpty = true
  · rw [if_pos h1] at h
    exact absurd h (by simp)
  · rw [if_neg h1] at h
    by_cases h2 : ((tb.map (fun b => b.board_id)).filter jTruthy).isEmpty = true
    · rw [if_pos h2] at h
      exact absurd h (by simp)
    · rw [if_neg h2] at h
      have hne : (tb.map (fun b => b.board_id)).filter jTruthy ≠ [] := by
        simpa [List.isEmpty_iff] using h2
      cases bd <;> (injection h with h; exact ⟨h.symm, h ▸ hne⟩)

lemma cleanupBoards_empty_filter (uf : Option (List String))
    (tb : List BoardRec) (bd : DelOutcome)
    (h : (tb.map (fun b => b.board_id)).filter jTruthy = []) :
    (cleanupBoards uf tb bd).boardFilter = none := by
  unfold cleanupBoards
  by_cases h1 : tb.isEmpty = true
  · rw [if_pos h1]
  · rw [if_neg h1, if_pos (by simp [List.isEmpty_iff, h])]

lemma cleanupBoards_all_filter (uf : Option (List String)) (tb : List BoardRec)
    (bd : DelOutcome) (hne : tb ≠ [])
    (htr : ∀ b ∈ tb, jTruthy b.board_id = true) :
    (cleanupBoards uf tb bd).boardFilter
      = some (tb.map (fun b => b.board_id)) := by
  have hfilter : (tb.map (fun b => b.board_id)).filter jTruthy
      = tb.map (fun b => b.board_id) := by
    rw [List.filter_eq_self]
    intro a ha
    obtain ⟨b, hb, rfl⟩ := List.mem_map.mp ha
    exact htr b hb
  have hmne : tb.map (fun b => b.board_id) ≠ [] := by
    intro hcon
    exact hne (List.map_eq_nil_iff.mp hcon)
  unfold cleanupBoards
  rw [if_neg (by simpa [List.isEmpty_iff] using hne),
      if_neg (by simp [List.isEmpty_iff, hfilter, hmne])]
  cases bd <;> simp [hfilter]

lemma cleanupBoards_exc_logged (uf : Option (List String)) (tb : List BoardRec)
    (hne : tb ≠ [])
    (htr : ∀ b ∈ tb, jTruthy b.board_id = true) :
    (cleanupBoards uf tb .exc).failureLogged = true := by
  have hfilter : (tb.map (fun b => b.board_id)).filter jTruthy
      = tb.map (fun b => b.board_id) := by
    rw [List.filter_eq_self]
    intro a ha
    obtain ⟨b, hb, rfl⟩ := List.mem_map.mp ha
    exact htr b hb
  have hmne : tb.map (fun b => b.board_id) ≠ [] := by
    intro hcon
    exact hne (List.map_eq_nil_iff.mp hcon)
  unfold cleanupBoards
  rw [if_neg (by simpa [List.isEmpty_iff] using hne),
      if_neg (by simp [List.isEmpty_iff, hfilter, hmne])]

lemma cleanup_cases (mongoOk : Bool) (users : List UserRec)
    (boards : List BoardRec) (ud bd : DelOutcome) :
    cleanup_test_data mongoOk users boards ud bd = ⟨none, none, true, false⟩
    ∨ cleanup_test_data mongoOk users boards ud bd
        = ⟨some (users.map (fun u => u.email)), none, false, true⟩
    ∨ ∃ uf, cleanup_test_data mongoOk users boards ud bd
        = cleanupBoards uf boards bd := by
  cases mongoOk with
  | false => exact Or.inl rfl
  | true =>
    cases users with
    | nil => exact Or.inr (Or.inr ⟨none, rfl⟩)
    | cons u us =>
      cases ud with
      | exc => exact Or.inr (Or.inl rfl)
      | ok k =>
        exact Or.inr (Or.inr
          ⟨some ((u :: us).map (fun x : UserRec => x.email)), rfl⟩)

/-- C7: teardown with an unavailable persistence client skips cleanup with a
log and deletes nothing; the user deletion filter is exactly the recorded
emails; an exception during user deletion is caught and logged and skips
board deletion; the board deletion filter is exactly the recorded board ids
(whenever all recorded ids are truthy, the normal case, see C10 for null
ids); an exception during board deletion is caught and logged.  Every path
returns a CleanupRun value, which is the model of teardown completing
without raising. -/
theorem C7_cleanup_teardown_contract :
    ∀ (users : List UserRec) (boards : List BoardRec) (ud bd : DelOutcome)
      (n : Nat),
      (tearDownClass false users boards ud bd
          = (⟨none, none, true, false⟩, false))
      ∧ (users ≠ [] →
          (cleanup_test_data true users boards ud bd).userFilter
            = some (users.map (fun u => u.email)))
      ∧ (users ≠ [] →
          cleanup_test_data true users boards .exc bd
            = ⟨some (users.map (fun u => u.email)), none, false, true⟩)
      ∧ ((∀ b ∈ boards, jTruthy b.board_id = true) → boards ≠ [] →
          (cleanup_test_data true users boards (.ok n) bd).boardFilter
            = some (boards.map (fun b => b.board_id)))
      ∧ ((∀ b ∈ boards, jTruthy b.board_id = true) → boards ≠ [] →
          (cleanup_test_data true users boards (.ok n) .exc).failureLogged
            = true) := by
  intro users boards ud bd n
  refine ⟨rfl, ?_, ?_, ?_, ?_⟩
  · intro hu
    cases users with
    | nil => exact absurd rfl hu
    | cons u us =>
      cases ud with
      | exc => rfl
      | ok k => exact cleanupBoards_userFilter _ _ _
  · intro hu
    cases users with
    | nil => exact absurd rfl hu
    | cons u us => rfl
  · intro htr hb
    cases users with
    | nil => exact cleanupBoards_all_filter none boards bd hb htr
    | cons u us => exact cleanupBoards_all_filter _ boards bd hb htr
  · intro htr hb
    cases users with
    | nil => exact cleanupBoards_exc_logged none boards hb htr
    | cons u us => exact cleanupBoards_exc_logged _ boards hb htr

/-- Closed instantiation of C7 at one user record and one board record. -/
theorem C7_cleanup_teardown_contract_witness :
    (tearDownClass false [⟨E1⟩] [⟨JVal.str "b1"⟩] (.ok 0) (.ok 0)
        = (⟨none, none, true, false⟩, false))
    ∧ ((cleanup_test_data true [⟨E1⟩] [⟨JVal.str "b1"⟩] (.ok 0)
          (.ok 0)).userFilter = some [E1])
    ∧ (cleanup_test_data true [⟨E1⟩] [⟨JVal.str "b1"⟩] .exc (.ok 0)
        = ⟨some [E1], none, false, true⟩)
    ∧ ((cleanup_test_data true [⟨E1⟩] [⟨JVal.str "b1"⟩] (.ok 0)
          (.ok 0)).boardFilter = some [JVal.str "b1"])
    ∧ ((cleanup_test_data true [⟨E1⟩] [⟨JVal.str "b1"⟩] (.ok 0)
          .exc).failureLogged = true) := by
  obtain ⟨h1, h2, h3, h4, h5⟩ :=
    C7_cleanup_teardown_contract [⟨E1⟩] [⟨JVal.str "b1"⟩] (.ok 0) (.ok 0) 0
  refine ⟨h1, h2 (List.cons_ne_nil _ _), h3 (List.cons_ne_nil _ _),
          h4 ?_ (List.cons_ne_nil _ _), h5 ?_ (List.cons_ne_nil _ _)⟩ <;>
    (intro b hb; simp only [List.mem_singleton] at hb; subst hb; rfl)

/-- C10: whenever a board deletion filter is passed to the persistence
layer it is exactly the recorded ids with all falsy (in particular null)
ids filtered out, hence never contains null and is nonempty; and when the
truthy subset is empty no board deletion call is issued at all. -/
theorem C10_board_filter_truthy :
    ∀ (mongoOk : Bool) (users : List UserRec) (boards : List BoardRec)
      (ud bd : DelOutcome),
      (∀ l, (cleanup_test_data mongoOk users boards ud bd).boardFilter
          = some l →
        l = (boards.map (fun b => b.board_id)).filter jTruthy
        ∧ JVal.null ∉ l ∧ l ≠ [])
      ∧ ((boards.map (fun b => b.board_id)).filter jTruthy = [] →
        (cleanup_test_data mongoOk users boards ud bd).boardFilter = none) := by
  intro mongoOk users boards ud bd
  constructor
  · intro l h
    rcases cleanup_cases mongoOk users boards ud bd with hc | hc | ⟨uf, hc⟩ <;>
      rw [hc] at h
    · exact absurd h (by simp)
    · exact absurd h (by simp)
    · obtain ⟨heq, hne⟩ := cleanupBoards_filter_inv uf boards bd l h
      refine ⟨heq, ?_, hne⟩
      intro hmem
      have := List.of_mem_filter (heq ▸ hmem)
      simp [jTruthy] at this
  · intro hfe
    rcases cleanup_cases mongoOk users boards ud bd with hc | hc | ⟨uf, hc⟩ <;>
      (rw [hc]
       try first
         | rfl
         | exact cleanupBoards_empty_filter _ boards bd hfe)

/-- Closed instantiation of C10 at a recorded null id next to a string id. -/
theorem C10_board_filter_truthy_witness :
    ([JVal.str "b1"]
        = (([⟨JVal.null⟩, ⟨JVal.str "b1"⟩] : List BoardRec).map
            (fun b => b.board_id)).filter jTruthy
      ∧ JVal.null ∉ [JVal.str "b1"] ∧ [JVal.str "b1"] ≠ [])
    ∧ (cleanup_test_data true [] [⟨JVal.null⟩] (.ok 0) (.ok 0)).boardFilter
        = none := by
  refine ⟨(C10_board_filter_truthy true [] [⟨JVal.null⟩, ⟨JVal.str "b1"⟩]
            (.ok 0) (.ok 0)).1 [JVal.str "b1"] (by rfl),
          (C10_board_filter_truthy true [] [⟨JVal.null⟩]
            (.ok 0) (.ok 0)).2 (by rfl)⟩

/-- Closed instantiation of C9 at a successful login response. -/
theorem C9_login_token_keys_witness :
    ((some (JVal.str "tokA")).isSome = true
       ↔ rLoginA.status = 200 ∧ (asObjB rLoginA.body).isSome = true)
    ∧ ((some (JVal.str "u1")).isSome = true
       ↔ rLoginA.status = 200 ∧ (asObjB rLoginA.body).isSome = true) :=
  C9_login_token_keys rLoginA
    ⟨200, rLoginA.body, some (JVal.str "tokA"), some (JVal.str "u1")⟩ (by rfl)

/-! ### C1 -/

/-- C1: evaluation of test 41 at a backend under which the second user board
listing does contain the first user board (the board created with id b1 is
listed with _id b1 in the response to the second user): the scenario still
passes, because the source never asserts that the foreign board id is
absent from the listing, against the stated isolation contract and against
the inline comment of the source that announces that check.  By contrast
the direct-get half of the contract is genuinely asserted by test 40: it
passes when the cross-user get is answered 404 with an error body and fails
when that get is answered 200 with the board. -/
theorem C1_cross_user_listing_unchecked :
    (test_41_board_list_other_user_boards E1 E2
       (oracleOf [rReg, rLoginA, rReg, rLoginB, rCreate, rList1])).1 = true
    ∧ (create_extract rCreate).board_id = some (JVal.str "b1")
    ∧ idsOfListing rList1 = [JVal.str "b1"]
    ∧ (test_40_board_access_other_user_board E1 E2
       (oracleOf [rReg, rLoginA, rReg, rLoginB, rCreate, r404])).1 = true
    ∧ (test_40_board_access_other_user_board E1 E2
       (oracleOf [rReg, rLoginA, rReg, rLoginB, rCreate, rGet1])).1 = false := by
  refine ⟨by decide, rfl, rfl, by decide, by decide⟩

/-! ### C2 -/

/-- C2 counterexample: at an explicit conforming run of the whole suite,
every scenario passes while no scenario issues more than one delete_board
call, and the two delete-asserting scenarios delete different ids: test 31
deletes the board id it just created (b1, asserted 200) and test 32 deletes
the fixed id nonexistent-board-id (asserted 404).  No scenario deletes the
same board id twice. -/
theorem C2_no_double_delete_scenario :
    (suiteRuns.all (fun r => r.1)) = true
    ∧ (suiteRuns.all (fun r =>
        decide ((r.2.filter (fun p => isDeleteRequest p.1)).length ≤ 1)))
        = true
    ∧ deleteIds (test_31_board_delete_existing E1
        (oracleOf [rReg, rLoginA, rCreate, rDelete])) = [JVal.str "b1"]
    ∧ deleteIds (test_32_board_delete_nonexistent E1
        (oracleOf [rReg, rLoginA, r404])) = [JVal.str "nonexistent-board-id"]
    ∧ deleteStatuses (test_31_board_delete_existing E1
        (oracleOf [rReg, rLoginA, rCreate, rDelete])) = [200]
    ∧ deleteStatuses (test_32_board_delete_nonexistent E1
        (oracleOf [rReg, rLoginA, r404])) = [404]
    ∧ (suiteRuns.map (fun r =>
        (r.2.filter (fun p => isDeleteRequest p.1)).length)).sum = 3 := by
  refine ⟨by decide, by decide, rfl, rfl, by decide, by decide, by decide⟩

/-! ### C3 -/

/-- C3 counterexample: test 28 passes against a backend whose follow-up
get_board response carries position.y = 999 instead of the updated 50,
because the scenario never asserts the y coordinate; the update and get
statuses and the scale and x assertions all hold on this run.  By contrast
the scale assertion does bite: the same run with a scale of 3 in the get
response fails the scenario. -/
theorem C3_y_not_asserted :
    (test_28_board_update_existing E1
       (oracleOf [rReg, rLoginA, rCreate, rUpdate, rGet2Bad])).1 = true
    ∧ (((pyIndexB rGet2Bad.body "board").bind
         (fun b => pyIndexJ b "position")).bind
         (fun p => pyIndexJ p "y")) = some (JVal.num 999)
    ∧ (test_28_board_update_existing E1
       (oracleOf [rReg, rLoginA, rCreate, rUpdate, rGet2BadScale])).1
        = false := by
  exact ⟨by decide, rfl, by decide⟩

/-! ### C4 -/

/-- C4 counterexample: at an explicit conforming run of the whole suite,
every scenario passes while every request addressed to a board endpoint
carries either the empty token or one of the two tokens handed out by the
login responses of the run; no board endpoint is ever exercised with a
syntactically invalid token, so no such 401 assertion exists for them.
Invalid tokens are exercised only against the profile endpoint, as the
request traces of tests 11 and 42 show. -/
theorem C4_no_invalid_token_board_calls :
    (suiteRuns.all (fun r => r.1)) = true
    ∧ (suiteRuns.all (fun r => r.2.all (fun p =>
        !isBoardRequest p.1
        || ((boardReqToken p.1).eqStr ""
            || (boardReqToken p.1).eqStr "tokA"
            || (boardReqToken p.1).eqStr "tokB")))) = true
    ∧ pyIndexB rLoginA.body "token" = some (JVal.str "tokA")
    ∧ pyIndexB rLoginB.body "token" = some (JVal.str "tokB")
    ∧ (test_11_user_profile_invalid_token (oracleOf [r401])).2.map
        (fun p => p.1) = [Request.profile (JVal.str "invalid-token")]
    ∧ (test_42_jwt_token_validation E1
        (oracleOf [rReg, rLoginA, r401, r401])).2.map (fun p => p.1)
        = [Request.register E1 "testpassword123",
           Request.login E1 "testpassword123",
           Request.profile (JVal.str "malformed.token.here"),
           Request.profile (JVal.str "")] := by
  refine ⟨by decide, by decide, rfl, rfl, rfl, rfl⟩

lemma create_extract_status (r : HResp) :
    (create_extract r).status_code = r.status := by
  unfold create_extract
  repeat' split
  all_goals rfl

lemma create_extract_response (r : HResp) :
    (create_extract r).response = r.body := by
  unfold create_extract
  repeat' split
  all_goals rfl

/-- C2 amended: the suite asserts the 200 and 404 delete statuses in two
separate scenarios on different board ids, not by deleting one id twice.
Whenever test 31 runs against a login response carrying a token and a
create response of the canonical nested shape with a string id, a passing
run contains exactly one delete_board call and its response had status 200;
a passing run of test 32 contains exactly one delete_board call, its board
id is the fixed string nonexistent-board-id (which the scenario never
created), and its response had status 404. -/
theorem C2_two_separate_delete_scenarios :
    (∀ (e : String) (o : Oracle) (lr : LoginResult) (t : JVal)
       (fs bfs : List (String × JVal)) (bid : String),
       login_extract (o 1) = some lr →
       lr.token = some t →
       asObjB (o 2).body = some fs →
       jLookup fs "board" = some (JVal.obj bfs) →
       jLookup bfs "_id" = some (JVal.str bid) →
       (test_31_board_delete_existing e o).1 = true →
       deleteStatuses (test_31_board_delete_existing e o) = [200])
    ∧ (∀ (e : String) (o : Oracle),
       (test_32_board_delete_nonexistent e o).1 = true →
       deleteStatuses (test_32_board_delete_nonexistent e o) = [404]
       ∧ deleteIds (test_32_board_delete_nonexistent e o)
           = [JVal.str "nonexistent-board-id"]) := by
  constructor
  · intro e o lr t fs bfs bid hle htok hobj hboard hid h
    unfold deleteStatuses
    simp only [test_31_board_delete_existing, register_user, login_user,
      create_board, get_boards, delete_board, St.boardIdOfCreate,
      St.boardIdFallback, St.attrGet, St.headJ, St.loginToken, St.forceJ,
      St.createBoardId, St.init, St.call, St.check, St.checkOpt, St.fail,
      create_extract_status, create_extract_response, hle, htok, hobj,
      hboard, hid, pyGet, JVal.isNull, if_true, if_false, Bool.true_and,
      Bool.false_eq_true, Option.getD_some] at h ⊢
    repeat' split at h
    all_goals simp_all [isDeleteRequest]
  · intro e o h
    unfold deleteStatuses deleteIds
    simp only [test_32_board_delete_nonexistent, register_user, login_user,
      delete_board, St.loginToken, St.forceJ, St.init, St.call, St.check,
      St.checkOpt, St.fail, if_true] at h ⊢
    repeat' split at h
    all_goals simp_all [isDeleteRequest, reqBoardId]

/-- Closed instantiation of C2 at the canonical conforming responses. -/
theorem C2_two_separate_delete_scenarios_witness :
    deleteStatuses (test_31_board_delete_existing E1
        (oracleOf [rReg, rLoginA, rCreate, rDelete])) = [200]
    ∧ (deleteStatuses (test_32_board_delete_nonexistent E1
          (oracleOf [rReg, rLoginA, r404])) = [404]
       ∧ deleteIds (test_32_board_delete_nonexistent E1
          (oracleOf [rReg, rLoginA, r404]))
           = [JVal.str "nonexistent-board-id"]) :=
  ⟨C2_two_separate_delete_scenarios.1 E1
     (oracleOf [rReg, rLoginA, rCreate, rDelete])
     ⟨200, rLoginA.body, some (JVal.str "tokA"), some (JVal.str "u1")⟩
     (JVal.str "tokA")
     [("message", JVal.str "Board created successfully"),
      ("board", JVal.obj [("_id", JVal.str "b1"), ("scale", JVal.num 1)])]
     [("_id", JVal.str "b1"), ("scale", JVal.num 1)]
     "b1" (by rfl) (by rfl) (by rfl) (by rfl) (by rfl) (by decide),
   C2_two_separate_delete_scenarios.2 E1
     (oracleOf [rReg, rLoginA, r404]) (by decide)⟩

set_option maxHeartbeats 3200000 in
/-- C3 amended: in test 28, a passing run against a login response carrying
a token and a create response of the canonical nested shape contains
exactly one update_board call answered 200 and exactly one get_board call
answered 200, and the body of every get_board response satisfies exactly
the checks the source performs: when the body is a JSON object with a board
key, board.scale equals 2.0 and board.position.x equals 50; the y
coordinate of the position is never asserted and the equality checks are
skipped entirely for a body of any other shape. -/
theorem C3_update_roundtrip_checks :
    ∀ (e : String) (o : Oracle) (lr : LoginResult) (t : JVal)
      (fs bfs : List (String × JVal)) (bid : String),
      login_extract (o 1) = some lr →
      lr.token = some t →
      asObjB (o 2).body = some fs →
      jLookup fs "board" = some (JVal.obj bfs) →
      jLookup bfs "_id" = some (JVal.str bid) →
      (test_28_board_update_existing e o).1 = true →
      updateStatuses (test_28_board_update_existing e o) = [200]
      ∧ getBoardStatuses (test_28_board_update_existing e o) = [200]
      ∧ ((test_28_board_update_existing e o).2.all
          (fun p => !isGetBoardRequest p.1 || c3ShapeChecked p.2)) = true := by
  intro e o lr t fs bfs bid hle htok hobj hboard hid h
  unfold updateStatuses getBoardStatuses
  simp only [test_28_board_update_existing, register_user, login_user,
    create_board, get_boards, get_board, update_board, St.boardIdOfCreate,
    St.boardIdFallback, St.attrGet, St.headJ, St.loginToken, St.forceJ,
    St.createBoardId, St.init, St.call, St.check, St.checkOpt, St.fail,
    create_extract_status, create_extract_response, hle, htok, hobj, hboard,
    hid, pyGet, JVal.isNull, if_true, if_false, Bool.true_and,
    Bool.false_eq_true, Option.getD_some] at h ⊢
  repeat' split at h
  all_goals
    simp_all [isGetBoardRequest, isUpdateRequest, c3ShapeChecked, pyIndexJ]

/-- Closed instantiation of C3 at the canonical conforming responses. -/
theorem C3_update_roundtrip_checks_witness :
    updateStatuses (test_28_board_update_existing E1
        (oracleOf [rReg, rLoginA, rCreate, rUpdate, rGet2])) = [200]
    ∧ getBoardStatuses (test_28_board_update_existing E1
        (oracleOf [rReg, rLoginA, rCreate, rUpdate, rGet2])) = [200]
    ∧ ((test_28_board_update_existing E1
        (oracleOf [rReg, rLoginA, rCreate, rUpdate, rGet2])).2.all
          (fun p => !isGetBoardRequest p.1 || c3ShapeChecked p.2)) = true :=
  C3_update_roundtrip_checks E1
    (oracleOf [rReg, rLoginA, rCreate, rUpdate, rGet2])
    ⟨200, rLoginA.body, some (JVal.str "tokA"), some (JVal.str "u1")⟩
    (JVal.str "tokA")
    [("message", JVal.str "Board created successfully"),
     ("board", JVal.obj [("_id", JVal.str "b1"), ("scale", JVal.num 1)])]
    [("_id", JVal.str "b1"), ("scale", JVal.num 1)]
    "b1" (by rfl) (by rfl) (by rfl) (by rfl) (by rfl) (by decide)

/-- C4 amended: the suite asserts 401 with an error body for a call with
the empty token on all six protected endpoints (profile, board create,
board list, board get, board update, board delete), but a syntactically
invalid token is only exercised against the profile endpoint: test 11
asserts 401 with an error body for the profile with the token
invalid-token, and test 42 asserts 401 (without inspecting the body) for
the profile with the tokens malformed.token.here and the empty token.  No
scenario calls a board endpoint with an invalid token (see the
counterexample). -/
theorem C4_empty_token_always_401 :
    ∀ (e : String) (o : Oracle),
      ((test_10_user_profile_no_token o).1 = true →
        (o 0).status = 401 ∧ pyInB "error" (o 0).body = some true)
      ∧ ((test_11_user_profile_invalid_token o).1 = true →
        (o 0).status = 401 ∧ pyInB "error" (o 0).body = some true)
      ∧ ((test_21_board_create_unauthenticated o).1 = true →
        (o 0).status = 401 ∧ pyInB "error" (o 0).body = some true)
      ∧ ((test_24_board_list_unauthenticated o).1 = true →
        (o 0).status = 401 ∧ pyInB "error" (o 0).body = some true)
      ∧ ((test_27_board_get_unauthenticated o).1 = true →
        (o 0).status = 401 ∧ pyInB "error" (o 0).body = some true)
      ∧ ((test_30_board_update_unauthenticated o).1 = true →
        (o 0).status = 401 ∧ pyInB "error" (o 0).body = some true)
      ∧ ((test_33_board_delete_unauthenticated o).1 = true →
        (o 0).status = 401 ∧ pyInB "error" (o 0).body = some true)
      ∧ ((test_42_jwt_token_validation e o).1 = true →
        (o 2).status = 401 ∧ (o 3).status = 401) := by
  intro e o
  refine ⟨?_, ?_, ?_, ?_, ?_, ?_, ?_, ?_⟩ <;> intro h
  · simp only [test_10_user_profile_no_token, get_profile, St.init, St.call,
      St.check, St.checkOpt, St.fail, if_true] at h
    repeat' split at h
    all_goals simp_all
  · simp only [test_11_user_profile_invalid_token, get_profile, St.init,
      St.call, St.check, St.checkOpt, St.fail, if_true] at h
    repeat' split at h
    all_goals simp_all
  · simp only [test_21_board_create_unauthenticated, create_board, St.init,
      St.call, St.check, St.checkOpt, St.fail, create_extract_status,
      create_extract_response, if_true] at h
    repeat' split at h
    all_goals simp_all
  · simp only [test_24_board_list_unauthenticated, get_boards, St.init,
      St.call, St.check, St.checkOpt, St.fail, if_true] at h
    repeat' split at h
    all_goals simp_all
  · simp only [test_27_board_get_unauthenticated, get_board, St.init,
      St.call, St.check, St.checkOpt, St.fail, if_true] at h
    repeat' split at h
    all_goals simp_all
  · simp only [test_30_board_update_unauthenticated, update_board, St.init,
      St.call, St.check, St.checkOpt, St.fail, if_true] at h
    repeat' split at h
    all_goals simp_all
  · simp only [test_33_board_delete_unauthenticated, delete_board, St.init,
      St.call, St.check, St.checkOpt, St.fail, if_true] at h
    repeat' split at h
    all_goals simp_all
  · simp only [test_42_jwt_token_validation, register_user, login_user,
      get_profile, St.init, St.call, St.check, St.checkOpt, St.fail,
      if_true] at h
    repeat' split at h
    all_goals simp_all

/-- Closed instantiation of C4 at the conforming 401 responses. -/
theorem C4_empty_token_always_401_witness :
    (r401.status = 401 ∧ pyInB "error" r401.body = some true)
    ∧ ((oracleOf [rReg, rLoginA, r401, r401] 2).status = 401
       ∧ (oracleOf [rReg, rLoginA, r401, r401] 3).status = 401) :=
  ⟨(C4_empty_token_always_401 E1 (oracleOf [r401])).1 (by decide),
   (C4_empty_token_always_401 E1 (oracleOf [rReg, rLoginA, r401, r401])).2.2.2.2.2.2.2
     (by decide)⟩

/-- C8: test 44 submits the board creation with the form content type and,
whenever its login response carries a token (so that the scenario reaches
the request at all), the scenario passes exactly when the response status
is one of 201, 400 and 415; any other status fails it. -/
theorem C8_content_type_status_set :
    ∀ (e : String) (o : Oracle) (lr : LoginResult) (t : JVal),
      login_extract (o 1) = some lr →
      lr.token = some t →
      ((test_44_content_type_validation e o).1 = true
        ↔ ((o 2).status = 201 ∨ (o 2).status = 400 ∨ (o 2).status = 415)) := by
  intro e o lr t hle htok
  simp only [test_44_content_type_validation, register_user, login_user,
    St.loginToken, St.forceJ, St.init, St.call, St.check, St.fail,
    hle, htok, if_true, Bool.true_and]
  simp only [Bool.or_eq_true, beq_iff_eq]
  tauto

/-- Closed instantiation of C8 at a conforming run: a 400 response to the
form-encoded creation is accepted. -/
theorem C8_content_type_status_set_witness :
    (test_44_content_type_validation E1
      (oracleOf [rReg, rLoginA, rBadReq])).1 = true :=
  (C8_content_type_status_set E1 (oracleOf [rReg, rLoginA, rBadReq])
      ⟨200, rLoginA.body, some (JVal.str "tokA"), some (JVal.str "u1")⟩
      (JVal.str "tokA") (by rfl) (by rfl)).mpr
    (Or.inr (Or.inl (by rfl)))

lemma digitChar_inj_lt :
    ∀ (a b : Nat), a < 10 → b < 10 → Nat.digitChar a = Nat.digitChar b →
      a = b := by
  intro a b ha hb
  interval_cases a <;> interval_cases b <;> decide

lemma map_digitChar_inj :
    ∀ (l₁ l₂ : List Nat), (∀ d ∈ l₁, d < 10) → (∀ d ∈ l₂, d < 10) →
      l₁.map Nat.digitChar = l₂.map Nat.digitChar → l₁ = l₂ := by
  intro l₁
  induction l₁ with
  | nil =>
    intro l₂ _ _ h
    cases l₂ with
    | nil => rfl
    | cons b bs => simp at h
  | cons a as ih =>
    intro l₂ h1 h2 h
    cases l₂ with
    | nil => simp at h
    | cons b bs =>
      simp only [List.map_cons, List.cons.injEq] at h
      have hab : a = b :=
        digitChar_inj_lt a b (h1 a (by simp)) (h2 b (by simp)) h.1
      subst hab
      rw [ih bs (fun d hd => h1 d (by simp [hd]))
            (fun d hd => h2 d (by simp [hd])) h.2]

lemma toDigitsCore_eq_digits :
    ∀ (fuel n : Nat) (acc : List Char), 0 < n → n < fuel →
      Nat.toDigitsCore 10 fuel n acc
        = ((Nat.digits 10 n).map Nat.digitChar).reverse ++ acc := by
  intro fuel
  induction fuel with
  | zero => intro n acc hn hf; exact absurd hf (Nat.not_lt_zero n)
  | succ f ih =>
    intro n acc hn hf
    rw [Nat.toDigitsCore]
    by_cases hq : n / 10 = 0
    · simp only [hq, if_true]
      rw [Nat.digits_def' (by norm_num) hn, hq]
      simp
    · simp only [hq, if_false]
      have hlt : n / 10 < f := by
        have h1 : n / 10 < n := Nat.div_lt_self hn (by norm_num)
        omega
      rw [ih (n / 10) _ (Nat.pos_of_ne_zero hq) hlt,
          Nat.digits_def' (by norm_num) hn]
      simp [List.append_assoc]

lemma repr_data_eq (n : Nat) (hn : 0 < n) :
    (Nat.repr n).data = ((Nat.digits 10 n).map Nat.digitChar).reverse := by
  show ((Nat.toDigits 10 n).asString).data = _
  rw [Nat.toDigits, toDigitsCore_eq_digits (n + 1) n [] hn (Nat.lt_succ_self n)]
  simp [List.asString]

lemma repr_injective : Function.Injective Nat.repr := by
  intro m n h
  have hdata : (Nat.repr m).data = (Nat.repr n).data := by rw [h]
  have hzero :
      ∀ k : Nat, 0 < k → ¬(['0'] = ((Nat.digits 10 k).map Nat.digitChar).reverse) := by
    intro k hk hcon
    have hmap : (Nat.digits 10 k).map Nat.digitChar = ['0'] := by
      have := congrArg List.reverse hcon
      simpa using this.symm
    have hdig : Nat.digits 10 k = [0] := by
      have h0 : ([0] : List Nat).map Nat.digitChar = ['0'] := by decide
      exact map_digitChar_inj (Nat.digits 10 k) [0]
        (fun d hd => Nat.digits_lt_base (by norm_num) hd)
        (by intro d hd; simp at hd; omega) (by rw [hmap, h0])
    have : k = 0 := by
      have hk2 := Nat.ofDigits_digits 10 k
      rw [hdig] at hk2
      simpa [Nat.ofDigits] using hk2.symm
    omega
  rcases Nat.eq_zero_or_pos m with hm | hm
  · rcases Nat.eq_zero_or_pos n with hn | hn
    · omega
    · subst hm
      rw [repr_data_eq n hn] at hdata
      exact absurd hdata (hzero n hn)
  · rcases Nat.eq_zero_or_pos n with hn | hn
    · subst hn
      rw [repr_data_eq m hm] at hdata
      exact absurd hdata.symm (hzero m hm)
    · rw [repr_data_eq m hm, repr_data_eq n hn] at hdata
      have hmap : (Nat.digits 10 m).map Nat.digitChar
          = (Nat.digits 10 n).map Nat.digitChar := by
        have := congrArg List.reverse hdata
        simpa using this
      have hdig : Nat.digits 10 m = Nat.digits 10 n :=
        map_digitChar_inj _ _
          (fun d hd => Nat.digits_lt_base (by norm_num) hd)
          (fun d hd => Nat.digits_lt_base (by norm_num) hd) hmap
      calc m = Nat.ofDigits 10 (Nat.digits 10 m) :=
              (Nat.ofDigits_digits 10 m).symm
        _ = Nat.ofDigits 10 (Nat.digits 10 n) := by rw [hdig]
        _ = n := Nat.ofDigits_digits 10 n

/-- C5: generate_test_email builds exactly the string
testuser_TIMESTAMP_SUFFIX at the fixed test domain, with the timestamp in
decimal; and for 8-character suffixes over the lowercase-alphanumeric
alphabet the generated emails are equal exactly when the
(timestamp, suffix) pairs are equal. -/
theorem C5_email_form_and_injective :
    ∀ (t1 t2 : Nat) (s1 s2 : String),
      s1.length = 8 → s2.length = 8 →
      (∀ c ∈ s1.data, c ∈ lowerAlnum) →
      (∀ c ∈ s2.data, c ∈ lowerAlnum) →
      (generate_test_email t1 s1
        = "testuser_" ++ Nat.repr t1 ++ "_" ++ s1 ++ "@test.example.com")
      ∧ (generate_test_email t1 s1 = generate_test_email t2 s2
          ↔ (t1 = t2 ∧ s1 = s2)) := by
  intro t1 t2 s1 s2 hl1 hl2 _hc1 _hc2
  constructor
  · apply String.ext
    simp only [generate_test_email, TEST_EMAIL_DOMAIN, String.data_append,
      List.append_assoc]
    rfl
  · constructor
    · intro heq
      have hd := congrArg String.data heq
      simp only [generate_test_email, TEST_EMAIL_DOMAIN, String.data_append,
        List.append_assoc] at hd
      have hd2 := List.append_cancel_left hd
      have hlen1 : s1.data.length = 8 := hl1
      have hlen2 : s2.data.length = 8 := hl2
      have hlen : ("_".data ++ (s1.data ++ "@".data ++ "test.example.com".data)).length
          = ("_".data ++ (s2.data ++ "@".data ++ "test.example.com".data)).length := by
        simp [hlen1, hlen2]
      have hsplit := List.append_inj'
        (by simpa [List.append_assoc] using hd2) hlen
      have ht : t1 = t2 := repr_injective (String.ext hsplit.1)
      have hs : s1 = s2 := by
        have h3 := hsplit.2
        simp only [List.append_assoc] at h3
        have h4 := List.append_cancel_left h3
        have h5 := List.append_cancel_right h4
        exact String.ext h5
      exact ⟨ht, hs⟩
    · rintro ⟨rfl, rfl⟩
      rfl

/-- Closed instantiation of C5 at the example timestamp and suffix of the
specification. -/
theorem C5_email_form_and_injective_witness :
    (generate_test_email 171 "abcd1234"
      = "testuser_" ++ Nat.repr 171 ++ "_" ++ "abcd1234"
        ++ "@test.example.com")
    ∧ (generate_test_email 171 "abcd1234" = generate_test_email 171 "abcd1234"
        ↔ (171 = 171 ∧ "abcd1234" = "abcd1234")) :=
  C5_email_form_and_injective 171 171 "abcd1234" "abcd1234"
    (by decide) (by decide) (by decide) (by decide)
